import Mathlib

/-!
Verification of the conversation-history core of the `streamlit_llm`
repository.

The definitions below are a shallow embedding of

* `src/llm_chat/chat/message.py` (`Message`, `Conversation`), and
* `src/llm_chat/utils/chat_history.py` (`ChatHistoryManager`),

together with one definition modelled from the design document for the
`llm_chat/chat/history.py` module, which is referenced by `app.py` and the
unit tests but is not part of the source tree.

Python dicts with string keys are embedded as insertion-ordered association
lists; every `datetime.now()` reading is passed in as an explicit `String`
parameter, since timestamps are only ever produced, stored and compared as
strings by this code.
-/

/-- Python dict update `d[k] = v` on an insertion-ordered association list:
if the key is present its value is updated in place (the entry keeps its
position), otherwise the pair is appended at the end. -/
def pyInsert (d : List (String × String)) (k v : String) : List (String × String) :=
  if (d.lookup k).isSome then d.map (fun p => if p.1 = k then (k, v) else p)
  else d ++ [(k, v)]

/-- Python dict spread `{**d, **m}`: the entries of `m` are inserted into `d`
left to right, overwriting values of keys already present. -/
def pyExtend (d m : List (String × String)) : List (String × String) :=
  m.foldl (fun acc kv => pyInsert acc kv.1 kv.2) d

/-- The reserved message-record keys (`message.py` line 44). -/
def standard_fields : List String := ["role", "content", "timestamp"]

/-- `Message` of `message.py`: role, content, display timestamp and an open
metadata mapping.  Metadata values are embedded as strings; the dict
machinery of `to_dict`/`from_dict` never inspects a value. -/
structure Message where
  role : String
  content : String
  timestamp : String
  metadata : List (String × String)
deriving DecidableEq, Repr

/-- `Message.__init__` (message.py lines 9-25): `timestamp or now` replaces a
missing or falsy (empty) timestamp by the current time, `metadata or {}`
defaults a missing metadata argument to the empty mapping. -/
def Message.init (role content : String) (timestamp : Option String)
    (metadata : Option (List (String × String))) (now : String) : Message :=
  { role := role, content := content,
    timestamp := match timestamp with
      | none => now
      | some t => if t = "" then now else t,
    metadata := metadata.getD [] }

/-- `Message.to_dict` (message.py lines 27-34): the dict literal
`{"role": .., "content": .., "timestamp": .., **self.metadata}`. -/
def Message.to_dict (m : Message) : List (String × String) :=
  pyExtend [("role", m.role), ("content", m.content), ("timestamp", m.timestamp)] m.metadata

/-- `Message.from_dict` (message.py lines 36-47): known keys are read with
defaults, every other entry of the record becomes metadata. -/
def Message.from_dict (data : List (String × String)) (now : String) : Message :=
  Message.init ((data.lookup "role").getD "") ((data.lookup "content").getD "")
    (data.lookup "timestamp")
    (some (data.filter (fun kv => !(standard_fields.contains kv.1)))) now

/-- `Conversation` of `message.py` lines 67-158. -/
structure Conversation where
  messages : List Message
  id : Option String
  title : Option String
  system_prompt : Option String
  created_at : String
  updated_at : String
deriving DecidableEq, Repr

/-- `Conversation.__init__` (message.py lines 70-88): `messages or []`, and
`created_at = now; updated_at = created_at`. -/
def Conversation.init (messages : Option (List Message))
    (id title system_prompt : Option String) (now : String) : Conversation :=
  { messages := messages.getD [], id := id, title := title,
    system_prompt := system_prompt, created_at := now, updated_at := now }

/-- `Conversation.add_message` (message.py lines 90-93). -/
def Conversation.add_message (c : Conversation) (m : Message) (now : String) : Conversation :=
  { c with messages := c.messages ++ [m], updated_at := now }

/-- The record produced by `Conversation.to_dict` (message.py lines 103-112):
a dict with the six fixed keys `id`, `title`, `system_prompt`, `created`,
`updated`, `messages`.  The keys are fixed (no spread), so the record is
embedded as a structure; `None` values are `Option.none`. -/
structure ConvDict where
  id : Option String
  title : Option String
  system_prompt : Option String
  created : String
  updated : String
  messages : List (List (String × String))
deriving DecidableEq, Repr

/-- `Conversation.to_dict` (message.py lines 103-112). -/
def Conversation.to_dict (c : Conversation) : ConvDict :=
  { id := c.id, title := c.title, system_prompt := c.system_prompt,
    created := c.created_at, updated := c.updated_at,
    messages := c.messages.map Message.to_dict }

/-- `Conversation.from_dict` (message.py lines 114-132): builds the messages,
constructs the conversation, then overwrites `created_at`/`updated_at` with
the stored values (`data.get("created", ...)` with the key present returns
the stored value, even when the fallback would be later). -/
def Conversation.from_dict (d : ConvDict) (now : String) : Conversation :=
  let msgs := d.messages.map (fun md => Message.from_dict md now)
  let c := Conversation.init (some msgs) d.id d.title d.system_prompt now
  { c with created_at := d.created, updated_at := d.updated }

/-! ### The history store (`utils/chat_history.py`) -/

/-- A message as handed to the store: the store only reads `m["role"]` and
`m["content"]` and counts messages. -/
structure SMsg where
  role : String
  content : String
deriving DecidableEq, Repr

/-- The conversation record written by `save_conversation`
(chat_history.py lines 70-77): the dict literal with exactly the keys
`id`, `title`, `created`, `updated`, `messages`. -/
structure SRecord where
  id : String
  title : Option String
  created : String
  updated : String
  messages : List SMsg
deriving DecidableEq, Repr

/-- The key list of the dict literal serialized by `save_conversation`
(chat_history.py lines 70-82): every record it writes has exactly these
keys, whatever the inputs were. -/
def SRecord.storedKeys (_ : SRecord) : List String :=
  ["id", "title", "created", "updated", "messages"]

/-- A listing entry (chat_history.py lines 153-160).  Records written by
this store contain every key, so the `data.get` defaults for missing keys
never fire; note that `data.get("title", ...)` returns a stored `null`
as-is (it only defaults when the key is absent). -/
structure ConvMeta where
  id : String
  title : Option String
  created : String
  updated : String
  message_count : Nat
deriving DecidableEq, Repr

/-- The state of a `ChatHistoryManager`: the storage directory content (one
file per conversation id; `none` content stands for a file that exists but
fails to parse) and the in-memory metadata cache (chat_history.py line 29). -/
structure Store where
  files : List (String × Option SRecord)
  cache : Option (List ConvMeta)
deriving DecidableEq, Repr

/-- Helper for `pysplit`: walk the characters, accumulating the current word
(reversed); whitespace ends a word, empty pieces are dropped. -/
def pysplitAux : List Char → List Char → List String
  | [], acc => if acc.isEmpty then [] else [String.mk acc.reverse]
  | c :: cs, acc =>
    if c.isWhitespace then
      if acc.isEmpty then pysplitAux cs []
      else String.mk acc.reverse :: pysplitAux cs []
    else pysplitAux cs (c :: acc)

/-- Python `str.split()` with no argument: split the string at whitespace
runs, dropping empty pieces. -/
def pysplit (s : String) : List String :=
  pysplitAux s.data []

/-- Python `" ".join(ws)` (and any other separator). -/
def pyjoin (sep : String) : List String → String
  | [] => ""
  | [w] => w
  | w :: ws => w ++ sep ++ pyjoin sep ws

/-- Python falsiness of an optional string (`if not x` for `x: Optional[str]`):
`None` and the empty string are falsy. -/
def optStrFalsy (x : Option String) : Bool :=
  match x with
  | none => true
  | some s => s == ""

/-- Writing one file, overwriting any previous file of the same name. -/
def writeFile {α : Type} (fs : List (String × α)) (name : String) (c : α) :
    List (String × α) :=
  if (fs.lookup name).isSome then fs.map (fun p => if p.1 = name then (name, c) else p)
  else fs ++ [(name, c)]

/-- `ChatHistoryManager.save_conversation` (chat_history.py lines 39-88).
`fresh_id` stands for the `datetime.now().strftime("%Y%m%d_%H%M%S")` reading
used when no id is supplied, `now` for the `datetime.now().isoformat()`
readings stored in `created` and `updated` (lines 74-75 both call `now()`). -/
def save_conversation (st : Store) (messages : List SMsg)
    (conversation_id title : Option String) (fresh_id now : String) : String × Store :=
  let cid := if optStrFalsy conversation_id then fresh_id else conversation_id.getD ""
  let title1 : Option String :=
    if optStrFalsy title && !messages.isEmpty then
      match messages.find? (fun m => m.role == "user") with
      | some m =>
        let ws := pysplit m.content
        some (pyjoin " " (ws.take 5) ++ (if ws.length > 5 then "..." else ""))
      | none => some ("Conversation " ++ cid)
    else title
  let record : SRecord :=
    { id := cid, title := title1, created := now, updated := now, messages := messages }
  (cid, { files := writeFile st.files cid (some record), cache := none })

/-- `load_conversation` (chat_history.py lines 90-110): `none` models the
`FileNotFoundError`, `some none` a present file whose parse fails
(`json.load` raises), `some (some r)` success. -/
def load_conversation (st : Store) (conversation_id : String) : Option (Option SRecord) :=
  st.files.lookup conversation_id

/-- `delete_conversation` (chat_history.py lines 112-130). -/
def delete_conversation (st : Store) (conversation_id : String) : Bool × Store :=
  if (st.files.lookup conversation_id).isSome then
    (true, { files := st.files.filter (fun p => p.1 != conversation_id), cache := none })
  else (false, st)

/-- Metadata extraction for one parsed record (chat_history.py lines 153-160). -/
def metaOfRecord (r : SRecord) : ConvMeta :=
  { id := r.id, title := r.title, created := r.created, updated := r.updated,
    message_count := r.messages.length }

/-- The scan of the storage directory (chat_history.py lines 148-163): files
that fail to parse are skipped, every parsed record yields one entry. -/
def scanListing (fs : List (String × Option SRecord)) : List ConvMeta :=
  fs.filterMap (fun p => p.2.map metaOfRecord)

/-- The comparison used by
`conversations.sort(key=lambda x: x["created"], reverse=True)`: descending
by the `created` string. -/
def byCreatedDesc (a b : ConvMeta) : Prop :=
  b.created ≤ a.created

instance : DecidableRel byCreatedDesc :=
  fun a b => String.decidableLE b.created a.created

instance : IsTotal ConvMeta byCreatedDesc :=
  ⟨fun a b => (le_total a.created b.created).symm⟩

instance : IsTrans ConvMeta byCreatedDesc :=
  ⟨fun _ _ _ h1 h2 => le_trans h2 h1⟩

/-- Scan plus the sort of chat_history.py lines 165-166. -/
def buildListing (fs : List (String × Option SRecord)) : List ConvMeta :=
  (scanListing fs).insertionSort byCreatedDesc

/-- `list_conversations` (chat_history.py lines 132-171): return the cache
unless absent or `force_refresh`, otherwise rebuild it from disk. -/
def list_conversations (st : Store) (force_refresh : Bool) : List ConvMeta × Store :=
  match st.cache, force_refresh with
  | some c, false => (c, st)
  | _, _ =>
    let l := buildListing st.files
    (l, { st with cache := some l })

/-- `rename_conversation` (chat_history.py lines 173-198): a missing file
makes `load_conversation` raise `FileNotFoundError`, which is caught and
returned as `false`; a present but unparseable file makes `json.load` raise
an error that is not caught, modelled by `none`. -/
def rename_conversation (st : Store) (conversation_id new_title now : String) :
    Option (Bool × Store) :=
  match st.files.lookup conversation_id with
  | none => some (false, st)
  | some none => none
  | some (some r) =>
    some (true,
      { files := writeFile st.files conversation_id
          (some { r with title := some new_title, updated := now }),
        cache := none })

/-! ### The saving interface of `chat/history.py`, modelled from the spec

`app.py` and the unit tests import `ChatHistoryManager` from
`llm_chat.chat.history`, a module that is not part of the source tree; the
design document specifies its `save` as
`save(messages, conversation_id?, title?, system_prompt?) -> conversation_id`
with the stored record carrying an optional `system_prompt` field. -/

/-- Modelled from the spec: the stored conversation record of
`llm_chat/chat/history.py` (module missing from the source tree), §3
"Stored Conversation Record": `id`, `title`, `created`, `updated`,
`system_prompt` (optional), `messages`. -/
structure SPRecord where
  id : String
  title : Option String
  system_prompt : Option String
  created : String
  updated : String
  messages : List SMsg
deriving DecidableEq, Repr

/-- Modelled from the spec: the store state of `llm_chat/chat/history.py`. -/
structure SPStore where
  files : List (String × SPRecord)
  cache : Option (List ConvMeta)
deriving DecidableEq, Repr

/-- Modelled from the spec: `save` of `llm_chat/chat/history.py` (§4.2),
which takes an optional `system_prompt`, synthesizes a missing id, derives a
missing title exactly as the reference store does, writes the full record —
including `system_prompt` — under the id, and invalidates the cache. -/
def save_conversation_sp (st : SPStore) (messages : List SMsg)
    (conversation_id title system_prompt : Option String) (fresh_id now : String) :
    String × SPStore :=
  let cid := if optStrFalsy conversation_id then fresh_id else conversation_id.getD ""
  let title1 : Option String :=
    if optStrFalsy title && !messages.isEmpty then
      match messages.find? (fun m => m.role == "user") with
      | some m =>
        let ws := pysplit m.content
        some (pyjoin " " (ws.take 5) ++ (if ws.length > 5 then "..." else ""))
      | none => some ("Conversation " ++ cid)
    else title
  let record : SPRecord :=
    { id := cid, title := title1, system_prompt := system_prompt,
      created := now, updated := now, messages := messages }
  (cid, { files := writeFile st.files cid record, cache := none })

/-- Modelled from the spec: `load` of `llm_chat/chat/history.py` (§4.2),
`none` models the NotFound failure. -/
def load_conversation_sp (st : SPStore) (conversation_id : String) : Option SPRecord :=
  st.files.lookup conversation_id

/-! ### Association-list lemmas -/

theorem lookup_cons_self {α : Type} (k : String) (v : α) (t : List (String × α)) :
    List.lookup k ((k, v) :: t) = some v := by
  simp [List.lookup]

theorem lookup_cons_ne {α : Type} {a k : String} (v : α) (t : List (String × α))
    (h : a ≠ k) : List.lookup a ((k, v) :: t) = List.lookup a t := by
  simp [List.lookup, beq_eq_false_iff_ne.mpr h]

theorem lookup_map_update {α : Type} (fs : List (String × α)) (n : String) (c : α)
    (h : (fs.lookup n).isSome) :
    (fs.map (fun p => if p.1 = n then (n, c) else p)).lookup n = some c := by
  induction fs with
  | nil => simp [List.lookup] at h
  | cons p t ih =>
    obtain ⟨k, v⟩ := p
    by_cases hk : k = n
    · subst hk
      have hd : (if (k, v).1 = k then (k, c) else (k, v)) = (k, c) := if_pos rfl
      rw [List.map_cons, hd, lookup_cons_self]
    · have hd : (if (k, v).1 = n then (n, c) else (k, v)) = (k, v) := if_neg hk
      have h2 : (t.lookup n).isSome := by
        rwa [lookup_cons_ne v t (Ne.symm hk)] at h
      rw [List.map_cons, hd, lookup_cons_ne v _ (Ne.symm hk)]
      exact ih h2

theorem lookup_map_update_ne {α : Type} (fs : List (String × α)) (n a : String) (c : α)
    (hne : a ≠ n) :
    (fs.map (fun p => if p.1 = n then (n, c) else p)).lookup a = fs.lookup a := by
  induction fs with
  | nil => simp
  | cons p t ih =>
    obtain ⟨k, v⟩ := p
    by_cases hk : k = n
    · subst hk
      have hd : (if (k, v).1 = k then (k, c) else (k, v)) = (k, c) := if_pos rfl
      rw [List.map_cons, hd, lookup_cons_ne c _ hne, lookup_cons_ne v t hne]
      exact ih
    · have hd : (if (k, v).1 = n then (n, c) else (k, v)) = (k, v) := if_neg hk
      by_cases hak : a = k
      · subst hak
        rw [List.map_cons, hd, lookup_cons_self, lookup_cons_self]
      · rw [List.map_cons, hd, lookup_cons_ne v _ hak, lookup_cons_ne v t hak]
        exact ih

theorem lookup_append_right {α : Type} (d e : List (String × α)) (a : String)
    (h : d.lookup a = none) : (d ++ e).lookup a = e.lookup a := by
  induction d with
  | nil => simp
  | cons p t ih =>
    obtain ⟨k, v⟩ := p
    by_cases hk : a = k
    · subst hk
      rw [lookup_cons_self] at h
      exact absurd h (by simp)
    · rw [lookup_cons_ne v t hk] at h
      rw [List.cons_append, lookup_cons_ne v _ hk]
      exact ih h

theorem lookup_append_left {α : Type} (d e : List (String × α)) (a : String) (v : α)
    (h : d.lookup a = some v) : (d ++ e).lookup a = some v := by
  induction d with
  | nil => simp [List.lookup] at h
  | cons p t ih =>
    obtain ⟨k, w⟩ := p
    by_cases hk : a = k
    · subst hk
      rw [lookup_cons_self] at h
      rw [List.cons_append, lookup_cons_self]
      exact h
    · rw [lookup_cons_ne w t hk] at h
      rw [List.cons_append, lookup_cons_ne w _ hk]
      exact ih h

theorem lookup_writeFile_self {α : Type} (fs : List (String × α)) (n : String) (c : α) :
    (writeFile fs n c).lookup n = some c := by
  by_cases h : (fs.lookup n).isSome
  · simp only [writeFile, h, if_true]
    exact lookup_map_update fs n c h
  · have hn : fs.lookup n = none := Option.not_isSome_iff_eq_none.mp h
    simp only [writeFile, h, Bool.false_eq_true, if_false]
    rw [lookup_append_right fs [(n, c)] n hn, lookup_cons_self]

theorem lookup_writeFile_ne {α : Type} (fs : List (String × α)) (n a : String) (c : α)
    (hne : a ≠ n) : (writeFile fs n c).lookup a = fs.lookup a := by
  by_cases h : (fs.lookup n).isSome
  · simp only [writeFile, h, if_true]
    exact lookup_map_update_ne fs n a c hne
  · simp only [writeFile, h, Bool.false_eq_true, if_false]
    cases ha : fs.lookup a with
    | some v => exact lookup_append_left fs [(n, c)] a v ha
    | none =>
      rw [lookup_append_right fs [(n, c)] a ha, lookup_cons_ne c [] hne, List.lookup]

theorem lookup_mem {α : Type} {fs : List (String × α)} {n : String} {c : α}
    (h : fs.lookup n = some c) : (n, c) ∈ fs := by
  induction fs with
  | nil => simp [List.lookup] at h
  | cons p t ih =>
    obtain ⟨k, v⟩ := p
    by_cases hk : n = k
    · subst hk
      rw [lookup_cons_self] at h
      obtain rfl : v = c := Option.some.inj h
      exact List.mem_cons_self _ _
    · rw [lookup_cons_ne v t hk] at h
      exact List.mem_cons_of_mem _ (ih h)

theorem lookup_filter_out {α : Type} (fs : List (String × α)) (n : String) :
    (fs.filter (fun p => p.1 != n)).lookup n = none := by
  induction fs with
  | nil => rfl
  | cons p t ih =>
    obtain ⟨k, v⟩ := p
    by_cases hk : k = n
    · subst hk
      have hd : (((k, v).1 != k) = false) := by simp
      rw [List.filter_cons, hd]
      exact ih
    · have hd : (((k, v).1 != n) = true) := by simp [hk]
      rw [List.filter_cons, hd]
      simp only [ite_true]
      rw [lookup_cons_ne v _ (Ne.symm hk)]
      exact ih

theorem pyInsert_eq_writeFile (d : List (String × String)) (k v : String) :
    pyInsert d k v = writeFile d k v := rfl

theorem lookup_pyInsert_self (d : List (String × String)) (k v : String) :
    (pyInsert d k v).lookup k = some v := by
  rw [pyInsert_eq_writeFile]
  exact lookup_writeFile_self d k v

theorem lookup_pyInsert_ne (d : List (String × String)) (k a v : String) (h : a ≠ k) :
    (pyInsert d k v).lookup a = d.lookup a := by
  rw [pyInsert_eq_writeFile]
  exact lookup_writeFile_ne d k a v h

theorem pyInsert_absent (d : List (String × String)) (k v : String)
    (h : d.lookup k = none) : pyInsert d k v = d ++ [(k, v)] := by
  simp [pyInsert, h]

theorem pyExtend_cons (d : List (String × String)) (k v : String)
    (m : List (String × String)) :
    pyExtend d ((k, v) :: m) = pyExtend (pyInsert d k v) m := rfl

theorem pyExtend_disjoint (d m : List (String × String))
    (hdisj : ∀ kv ∈ m, d.lookup kv.1 = none)
    (hnd : (m.map Prod.fst).Nodup) : pyExtend d m = d ++ m := by
  induction m generalizing d with
  | nil => simp [pyExtend]
  | cons kv t ih =>
    obtain ⟨k, v⟩ := kv
    have hnd2 : (k :: t.map Prod.fst).Nodup := by simpa using hnd
    have hk : k ∉ t.map Prod.fst := (List.nodup_cons.mp hnd2).1
    have hndt : (t.map Prod.fst).Nodup := (List.nodup_cons.mp hnd2).2
    have hdisj2 : ∀ kv2 ∈ t, (d ++ [(k, v)]).lookup kv2.1 = none := by
      intro kv2 hkv2
      have h1 : d.lookup kv2.1 = none := hdisj kv2 (List.mem_cons_of_mem _ hkv2)
      have h2 : kv2.1 ≠ k := fun he => hk (he ▸ List.mem_map.mpr ⟨kv2, hkv2, rfl⟩)
      rw [lookup_append_right d [(k, v)] kv2.1 h1, lookup_cons_ne v [] h2, List.lookup]
    rw [pyExtend_cons, pyInsert_absent d k v (hdisj (k, v) (List.mem_cons_self _ _)),
      ih (d ++ [(k, v)]) hdisj2 hndt]
    simp

theorem to_dict_disjoint (m : Message)
    (hdisj : ∀ kv ∈ m.metadata, kv.1 ∉ standard_fields)
    (hnd : (m.metadata.map Prod.fst).Nodup) :
    m.to_dict = ("role", m.role) :: ("content", m.content) ::
      ("timestamp", m.timestamp) :: m.metadata := by
  have hd : ∀ kv ∈ m.metadata,
      ([("role", m.role), ("content", m.content),
        ("timestamp", m.timestamp)].lookup kv.1) = none := by
    intro kv hkv
    have h3 := hdisj kv hkv
    simp only [standard_fields, List.mem_cons, List.mem_singleton, not_or] at h3
    obtain ⟨h1, h2, h3, -⟩ := h3
    rw [lookup_cons_ne _ _ h1, lookup_cons_ne _ _ h2, lookup_cons_ne _ _ h3, List.lookup]
  rw [Message.to_dict, pyExtend_disjoint _ _ hd hnd]
  rfl

theorem from_dict_to_dict (m : Message) (now : String)
    (hdisj : ∀ kv ∈ m.metadata, kv.1 ∉ standard_fields)
    (hnd : (m.metadata.map Prod.fst).Nodup) :
    Message.from_dict (Message.to_dict m) now =
      { role := m.role, content := m.content,
        timestamp := if m.timestamp = "" then now else m.timestamp,
        metadata := m.metadata } := by
  rw [Message.from_dict, to_dict_disjoint m hdisj hnd]
  have e1 : (("role", m.role) :: ("content", m.content) ::
      ("timestamp", m.timestamp) :: m.metadata).lookup "role" = some m.role :=
    lookup_cons_self _ _ _
  have e2 : (("role", m.role) :: ("content", m.content) ::
      ("timestamp", m.timestamp) :: m.metadata).lookup "content" = some m.content := by
    rw [lookup_cons_ne _ _ (by decide), lookup_cons_self]
  have e3 : (("role", m.role) :: ("content", m.content) ::
      ("timestamp", m.timestamp) :: m.metadata).lookup "timestamp" = some m.timestamp := by
    rw [lookup_cons_ne _ _ (by decide), lookup_cons_ne _ _ (by decide), lookup_cons_self]
  have e4 : (("role", m.role) :: ("content", m.content) ::
      ("timestamp", m.timestamp) :: m.metadata).filter
        (fun kv => !(standard_fields.contains kv.1)) = m.metadata := by
    have c1 : (!(standard_fields.contains "role")) = false := by decide
    have c2 : (!(standard_fields.contains "content")) = false := by decide
    have c3 : (!(standard_fields.contains "timestamp")) = false := by decide
    simp only [List.filter_cons, c1, c2, c3, Bool.false_eq_true, if_false]
    exact List.filter_eq_self.mpr (fun kv hkv => by simpa using hdisj kv hkv)
  rw [e1, e2, e3, e4]
  rfl

theorem conv_from_dict_to_dict (c : Conversation) (now : String)
    (h : ∀ msg ∈ c.messages, (∀ kv ∈ msg.metadata, kv.1 ∉ standard_fields) ∧
      (msg.metadata.map Prod.fst).Nodup ∧ msg.timestamp ≠ "") :
    Conversation.from_dict (Conversation.to_dict c) now = c := by
  have hmsg : ∀ msg ∈ c.messages, Message.from_dict (Message.to_dict msg) now = msg := by
    intro msg hmem
    rw [from_dict_to_dict msg now (h msg hmem).1 (h msg hmem).2.1,
      if_neg (h msg hmem).2.2]
  have hmap : (c.messages.map Message.to_dict).map (fun md => Message.from_dict md now) =
      c.messages := by
    rw [List.map_map]
    calc c.messages.map ((fun md => Message.from_dict md now) ∘ Message.to_dict)
        = c.messages.map (fun msg => msg) :=
          List.map_congr_left (fun msg hmem => hmsg msg hmem)
      _ = c.messages := by simp
  show ({ messages :=
            (c.messages.map Message.to_dict).map (fun md => Message.from_dict md now),
          id := c.id, title := c.title, system_prompt := c.system_prompt,
          created_at := c.created_at, updated_at := c.updated_at } : Conversation) = c
  rw [hmap]

/-! ### Listing lemmas -/

theorem mem_scanListing {fs : List (String × Option SRecord)} {n : String} {r : SRecord}
    (h : (n, some r) ∈ fs) : metaOfRecord r ∈ scanListing fs :=
  List.mem_filterMap.mpr ⟨(n, some r), h, rfl⟩

theorem length_scanListing (fs : List (String × Option SRecord)) :
    (scanListing fs).length = (fs.filter (fun p => p.2.isSome)).length := by
  induction fs with
  | nil => rfl
  | cons p t ih =>
    obtain ⟨n, o⟩ := p
    cases o with
    | none => simpa [scanListing, List.filterMap_cons, List.filter_cons] using ih
    | some r => simpa [scanListing, List.filterMap_cons, List.filter_cons] using ih

theorem mem_buildListing {fs : List (String × Option SRecord)} {n : String} {r : SRecord}
    (h : (n, some r) ∈ fs) : metaOfRecord r ∈ buildListing fs :=
  (List.mem_insertionSort _).mpr (mem_scanListing h)

theorem length_buildListing (fs : List (String × Option SRecord)) :
    (buildListing fs).length = (fs.filter (fun p => p.2.isSome)).length := by
  rw [buildListing, List.length_insertionSort, length_scanListing]

theorem buildListing_perm (fs : List (String × Option SRecord)) :
    (buildListing fs).Perm (scanListing fs) :=
  List.perm_insertionSort _ _

theorem buildListing_sorted (fs : List (String × Option SRecord)) :
    List.Sorted byCreatedDesc (buildListing fs) :=
  List.sorted_insertionSort _ _

theorem list_conversations_rebuild (st : Store) (h : st.cache = none) :
    (list_conversations st false).1 = buildListing st.files := by
  rcases st with ⟨files, cache⟩
  simp only at h
  subst h
  rfl

theorem list_conversations_force (st : Store) :
    (list_conversations st true).1 = buildListing st.files := by
  rcases st with ⟨files, cache⟩
  cases cache <;> rfl

theorem lookup_pyExtend_not_mem (d m : List (String × String)) (k : String)
    (h : k ∉ m.map Prod.fst) : (pyExtend d m).lookup k = d.lookup k := by
  induction m generalizing d with
  | nil => rfl
  | cons kv t ih =>
    obtain ⟨k1, v1⟩ := kv
    simp only [List.map_cons, List.mem_cons, not_or] at h
    rw [pyExtend_cons, ih (pyInsert d k1 v1) h.2, lookup_pyInsert_ne d k1 k v1 h.1]

theorem lookup_pyExtend_mem (d m : List (String × String)) (k v : String)
    (hnd : (m.map Prod.fst).Nodup) (h : m.lookup k = some v) :
    (pyExtend d m).lookup k = some v := by
  induction m generalizing d with
  | nil => simp [List.lookup] at h
  | cons kv t ih =>
    obtain ⟨k1, v1⟩ := kv
    have hnd2 : (k1 :: t.map Prod.fst).Nodup := by simpa using hnd
    by_cases hk : k = k1
    · subst hk
      rw [lookup_cons_self] at h
      obtain rfl : v1 = v := Option.some.inj h
      rw [pyExtend_cons, lookup_pyExtend_not_mem _ _ _ (List.nodup_cons.mp hnd2).1,
        lookup_pyInsert_self]
    · rw [lookup_cons_ne v1 t hk] at h
      rw [pyExtend_cons]
      exact ih (pyInsert d k1 v1) (List.nodup_cons.mp hnd2).2 h

theorem sorted_desc_strict (l : List ConvMeta)
    (hs : List.Sorted byCreatedDesc l) (hnd : (l.map ConvMeta.created).Nodup) :
    l.Pairwise (fun a b => b.created < a.created) := by
  have hne : l.Pairwise (fun a b => a.created ≠ b.created) := List.pairwise_map.mp hnd
  exact (hs.and hne).imp (fun hab => lt_of_le_of_ne hab.1 (fun he => hab.2 he.symm))

/-! ### Claims -/

/-- Claim C1: the claim states that saving with an explicit id whose record
already exists preserves the prior record's `created` timestamp and only
refreshes `updated`.  The code does not: chat_history.py lines 74-75 write
`datetime.now()` into both fields.  Evaluated at the failing input — a store
holding a record with `created = "2025-01-01T00:00:00"`, rewritten by a save
at `"2025-06-01T12:00:00"` — the stored `created` becomes the save time. -/
theorem C1_created_not_preserved :
    (save_conversation
        { files := [("c1", some { id := "c1", title := some "T",
                                  created := "2025-01-01T00:00:00",
                                  updated := "2025-01-01T00:00:00",
                                  messages := [] })],
          cache := none }
        [{ role := "user", content := "hi" }] (some "c1") (some "T")
        "20250601_120000" "2025-06-01T12:00:00").2.files.lookup "c1" =
      some (some { id := "c1", title := some "T",
                   created := "2025-06-01T12:00:00",
                   updated := "2025-06-01T12:00:00",
                   messages := [{ role := "user", content := "hi" }] }) ∧
    ("2025-06-01T12:00:00" : String) ≠ "2025-01-01T00:00:00" := by
  exact ⟨by decide, by decide⟩

/-- Claim C2 (counterexample): a `Message` whose metadata contains the
reserved key `"role"` does not round-trip: the metadata entry overwrites the
record's role field (message.py line 33) and is then re-absorbed as the
standard field by `from_dict` (lines 43-45), so neither the role nor the
metadata set is reproduced. -/
theorem C2_roundtrip_counterexample :
    (Message.from_dict
        (Message.to_dict { role := "user", content := "hi", timestamp := "12:00:00",
                           metadata := [("role", "evil")] }) "13:00:00").role = "evil" ∧
    (Message.from_dict
        (Message.to_dict { role := "user", content := "hi", timestamp := "12:00:00",
                           metadata := [("role", "evil")] }) "13:00:00").metadata = [] ∧
    ("evil" : String) ≠ "user" ∧
    ([] : List (String × String)) ≠ [("role", "evil")] := by
  exact ⟨by decide, by decide, by decide, by decide⟩

/-- Claim C2 (amended): for every Message whose metadata mapping contains
none of the reserved keys `role`, `content`, `timestamp` (and has distinct
keys, as every Python dict does), deserializing the record produced by
serialize reproduces role, content and the metadata entries exactly; and
analogously a Conversation whose messages all satisfy this (with nonempty
timestamps, as every constructed message has) round-trips exactly. -/
theorem C2_roundtrip (m : Message) (c : Conversation) (now now2 : String)
    (hdisj : ∀ kv ∈ m.metadata, kv.1 ∉ standard_fields)
    (hnd : (m.metadata.map Prod.fst).Nodup)
    (hc : ∀ msg ∈ c.messages, (∀ kv ∈ msg.metadata, kv.1 ∉ standard_fields) ∧
      (msg.metadata.map Prod.fst).Nodup ∧ msg.timestamp ≠ "") :
    (Message.from_dict (Message.to_dict m) now).role = m.role ∧
    (Message.from_dict (Message.to_dict m) now).content = m.content ∧
    (Message.from_dict (Message.to_dict m) now).metadata = m.metadata ∧
    Conversation.from_dict (Conversation.to_dict c) now2 = c := by
  refine ⟨?_, ?_, ?_, conv_from_dict_to_dict c now2 hc⟩ <;>
    rw [from_dict_to_dict m now hdisj hnd]

/-- Claim C2 witness: the amended round-trip applied to a concrete message
with one non-reserved metadata key and to a concrete two-message
conversation. -/
theorem C2_roundtrip_witness :
    (Message.from_dict
        (Message.to_dict { role := "user", content := "hi", timestamp := "12:00:00",
                           metadata := [("lang", "en")] }) "13:00:00").role = "user" ∧
    (Message.from_dict
        (Message.to_dict { role := "user", content := "hi", timestamp := "12:00:00",
                           metadata := [("lang", "en")] }) "13:00:00").content = "hi" ∧
    (Message.from_dict
        (Message.to_dict { role := "user", content := "hi", timestamp := "12:00:00",
                           metadata := [("lang", "en")] }) "13:00:00").metadata =
      [("lang", "en")] ∧
    Conversation.from_dict
        (Conversation.to_dict
          { messages := [{ role := "user", content := "hello", timestamp := "12:00:00",
                           metadata := [] },
                         { role := "assistant", content := "hi there", timestamp := "12:00:05",
                           metadata := [("model", "gpt")] }],
            id := some "i1", title := some "t1", system_prompt := some "be nice",
            created_at := "2025-01-01T00:00:00", updated_at := "2025-01-01T00:01:00" })
        "2025-02-02T00:00:00" =
      { messages := [{ role := "user", content := "hello", timestamp := "12:00:00",
                       metadata := [] },
                     { role := "assistant", content := "hi there", timestamp := "12:00:05",
                       metadata := [("model", "gpt")] }],
        id := some "i1", title := some "t1", system_prompt := some "be nice",
        created_at := "2025-01-01T00:00:00", updated_at := "2025-01-01T00:01:00" } :=
  C2_roundtrip
    { role := "user", content := "hi", timestamp := "12:00:00", metadata := [("lang", "en")] }
    { messages := [{ role := "user", content := "hello", timestamp := "12:00:00",
                     metadata := [] },
                   { role := "assistant", content := "hi there", timestamp := "12:00:05",
                     metadata := [("model", "gpt")] }],
      id := some "i1", title := some "t1", system_prompt := some "be nice",
      created_at := "2025-01-01T00:00:00", updated_at := "2025-01-01T00:01:00" }
    "13:00:00" "2025-02-02T00:00:00" (by decide) (by decide) (by decide)

/-- Claim C10: `to_dict` spreads metadata after the standard fields.  For
every Message whose metadata avoids the keys `role`, `content`, `timestamp`
(with distinct keys and a nonempty timestamp, as constructed messages have),
`from_dict (to_dict m)` reproduces the whole message exactly; and whenever
the metadata does contain a reserved key, its value overwrites the
corresponding standard field of the record. -/
theorem C10_metadata_spread (m : Message) (now : String) :
    ((∀ kv ∈ m.metadata, kv.1 ∉ standard_fields) → (m.metadata.map Prod.fst).Nodup →
      m.timestamp ≠ "" → Message.from_dict (Message.to_dict m) now = m) ∧
    (∀ k v, k ∈ standard_fields → (m.metadata.map Prod.fst).Nodup →
      m.metadata.lookup k = some v → (Message.to_dict m).lookup k = some v) := by
  constructor
  · intro hdisj hnd hts
    rw [from_dict_to_dict m now hdisj hnd, if_neg hts]
  · intro k v _ hnd hlk
    exact lookup_pyExtend_mem _ _ _ _ hnd hlk

/-- Claim C10 witness: exact round-trip of a message with disjoint metadata,
and the `"role"` entry of a message whose metadata carries `"role"`
overwriting the record's role field. -/
theorem C10_metadata_spread_witness :
    Message.from_dict
        (Message.to_dict { role := "user", content := "hi", timestamp := "12:00:00",
                           metadata := [("lang", "en"), ("model", "gpt")] }) "13:00:00" =
      { role := "user", content := "hi", timestamp := "12:00:00",
        metadata := [("lang", "en"), ("model", "gpt")] } ∧
    (Message.to_dict { role := "user", content := "hi", timestamp := "12:00:00",
                       metadata := [("role", "evil")] }).lookup "role" = some "evil" :=
  ⟨(C10_metadata_spread
      { role := "user", content := "hi", timestamp := "12:00:00",
        metadata := [("lang", "en"), ("model", "gpt")] }
      "13:00:00").1 (by decide) (by decide) (by decide),
   (C10_metadata_spread
      { role := "user", content := "hi", timestamp := "12:00:00",
        metadata := [("role", "evil")] }
      "13:00:00").2 "role" "evil" (by decide) (by decide) (by decide)⟩

/-- Claim C3: `save` accepts an optional `system_prompt` and writes it into
the stored record, so that loading the returned id yields a record whose
`system_prompt` equals the argument.  Settled against the spec-modelled
`save`/`load` of the missing `llm_chat/chat/history.py` module. -/
theorem C3_system_prompt_saved (st : SPStore) (messages : List SMsg)
    (conversation_id title system_prompt : Option String) (fresh_id now : String) :
    ∃ r : SPRecord,
      load_conversation_sp
          (save_conversation_sp st messages conversation_id title system_prompt
            fresh_id now).2
          (save_conversation_sp st messages conversation_id title system_prompt
            fresh_id now).1 = some r ∧
      r.system_prompt = system_prompt ∧
      r.messages = messages ∧
      r.created = now ∧ r.updated = now :=
  ⟨_, lookup_writeFile_self _ _ _, rfl, rfl, rfl, rfl⟩

/-- Claim C4 (counterexample): the claim states that with no explicit title
and no user message the stored title is the generic `"Conversation {id}"`
label.  With an empty message list (which contains no user message) the
derivation is skipped entirely (`if not title and messages:` at
chat_history.py line 58) and the stored title is `None`. -/
theorem C4_title_counterexample :
    (save_conversation { files := [], cache := none } [] none none "ID1" "N1").2.files.lookup
        "ID1" =
      some (some { id := "ID1", title := none, created := "N1", updated := "N1",
                   messages := [] }) ∧
    (none : Option String) ≠ some ("Conversation " ++ "ID1") := by
  exact ⟨by decide, by decide⟩

/-- Claim C4 (amended): for every save call whose title argument is falsy
(absent or empty), the record stored under the returned id carries: the
first user message's first 5 whitespace-delimited words joined by blanks,
with `"..."` appended when the message has more than 5 words; the label
`"Conversation {id}"` when the message list is nonempty but has no user
message; and the unchanged (falsy) title argument when the message list is
empty. -/
theorem C4_title_derivation (st : Store) (messages : List SMsg)
    (conversation_id title : Option String) (fresh_id now : String)
    (ht : optStrFalsy title = true) :
    ∃ r : SRecord,
      (save_conversation st messages conversation_id title fresh_id now).2.files.lookup
          (save_conversation st messages conversation_id title fresh_id now).1 =
        some (some r) ∧
      r.title =
        (match messages.find? (fun m => m.role == "user") with
         | some m =>
             some (pyjoin " " ((pysplit m.content).take 5) ++
               (if (pysplit m.content).length > 5 then "..." else ""))
         | none =>
             if messages.isEmpty then title
             else some ("Conversation " ++
               (save_conversation st messages conversation_id title fresh_id now).1)) := by
  refine ⟨_, lookup_writeFile_self _ _ _, ?_⟩
  cases messages with
  | nil => simp [ht]
  | cons m0 rest =>
    cases hf : List.find? (fun m => m.role == "user") (m0 :: rest) with
    | some m => simp [save_conversation, ht, hf]
    | none => simp [save_conversation, ht, hf]

/-- Claim C4 witness: the derived title of the reference example message
"This should be the title of my conversation" is
"This should be the title...". -/
theorem C4_title_derivation_witness :
    ∃ r : SRecord,
      (save_conversation { files := [], cache := none }
          [{ role := "user", content := "This should be the title of my conversation" }]
          none none "F1" "N1").2.files.lookup
          (save_conversation { files := [], cache := none }
            [{ role := "user", content := "This should be the title of my conversation" }]
            none none "F1" "N1").1 =
        some (some r) ∧
      r.title = some "This should be the title..." := by
  obtain ⟨r, h1, h2⟩ := C4_title_derivation { files := [], cache := none }
    [{ role := "user", content := "This should be the title of my conversation" }]
    none none "F1" "N1" (by decide)
  refine ⟨r, h1, ?_⟩
  rw [h2]
  decide

/-- Claim C5: after every mutating operation (save, delete of an existing
record, successful rename) the cache is invalidated, so a subsequent
`list()` rebuilds from disk and equals the scan of the mutated store —
whatever the cache held before the mutation. -/
theorem C5_cache_coherence (st : Store) (messages : List SMsg)
    (conversation_id title : Option String) (fresh_id now : String)
    (cid new_title now2 : String) :
    ((save_conversation st messages conversation_id title fresh_id now).2.cache = none ∧
      (list_conversations
          (save_conversation st messages conversation_id title fresh_id now).2 false).1 =
        buildListing
          (save_conversation st messages conversation_id title fresh_id now).2.files) ∧
    (∀ st2 : Store, delete_conversation st cid = (true, st2) →
      st2.cache = none ∧
      (list_conversations st2 false).1 = buildListing st2.files) ∧
    (∀ st2 : Store, rename_conversation st cid new_title now2 = some (true, st2) →
      st2.cache = none ∧
      (list_conversations st2 false).1 = buildListing st2.files) := by
  refine ⟨⟨rfl, list_conversations_rebuild _ rfl⟩, ?_, ?_⟩
  · intro st2 h
    by_cases hl : (st.files.lookup cid).isSome
    · simp only [delete_conversation, hl, if_true, Prod.mk.injEq] at h
      obtain ⟨-, h2⟩ := h
      subst h2
      exact ⟨rfl, list_conversations_rebuild _ rfl⟩
    · simp [delete_conversation, hl] at h
  · intro st2 h
    cases hl : st.files.lookup cid with
    | none => simp [rename_conversation, hl] at h
    | some o =>
      cases o with
      | none => simp [rename_conversation, hl] at h
      | some r =>
        simp only [rename_conversation, hl, Option.some.injEq, Prod.mk.injEq] at h
        obtain ⟨-, h2⟩ := h
        subst h2
        exact ⟨rfl, list_conversations_rebuild _ rfl⟩

/-- Claim C5 witness: the delete and rename parts applied to a concrete
store whose cache is populated. -/
theorem C5_cache_coherence_witness :
    ((⟨[], none⟩ : Store).cache = none ∧
      (list_conversations ⟨[], none⟩ false).1 = buildListing (⟨[], none⟩ : Store).files) ∧
    ((⟨[("a", some ⟨"a", some "N", "2025-01-01", "N2", []⟩)], none⟩ : Store).cache = none ∧
      (list_conversations ⟨[("a", some ⟨"a", some "N", "2025-01-01", "N2", []⟩)], none⟩
          false).1 =
        buildListing
          (⟨[("a", some ⟨"a", some "N", "2025-01-01", "N2", []⟩)], none⟩ : Store).files) :=
  ⟨(C5_cache_coherence
      ⟨[("a", some ⟨"a", some "T", "2025-01-01", "2025-01-01", []⟩)], some []⟩
      [] none none "F1" "N1" "a" "N" "N2").2.1 ⟨[], none⟩ (by decide),
   (C5_cache_coherence
      ⟨[("a", some ⟨"a", some "T", "2025-01-01", "2025-01-01", []⟩)], some []⟩
      [] none none "F1" "N1" "a" "N" "N2").2.2
      ⟨[("a", some ⟨"a", some "N", "2025-01-01", "N2", []⟩)], none⟩ (by decide)⟩

/-- Claim C6: on any reachable cache state (absent, or the listing of the
current files), when the parseable records carry pairwise-distinct `created`
strings, `list()` returns exactly the scanned entries, in strictly
descending order of `created`. -/
theorem C6_list_descending (st : Store)
    (hcache : st.cache = none ∨ st.cache = some (buildListing st.files))
    (hdistinct : ((scanListing st.files).map ConvMeta.created).Nodup) :
    (list_conversations st false).1.Perm (scanListing st.files) ∧
    (list_conversations st false).1.Pairwise (fun a b => b.created < a.created) := by
  obtain ⟨files, cache⟩ := st
  have hout : (list_conversations ⟨files, cache⟩ false).1 = buildListing files := by
    rcases hcache with h | h
    · have h2 : cache = none := h
      rw [h2]
      rfl
    · have h2 : cache = some (buildListing files) := h
      rw [h2]
      rfl
  rw [hout]
  exact ⟨buildListing_perm files,
    sorted_desc_strict _ (buildListing_sorted files)
      (((buildListing_perm files).symm.map ConvMeta.created).nodup hdistinct)⟩

/-- Claim C6 witness: a two-record store with distinct creation times lists
newest first. -/
theorem C6_list_descending_witness :
    (list_conversations ⟨[("a", some ⟨"a", none, "2025-01-01", "u", []⟩),
        ("b", some ⟨"b", none, "2025-01-02", "u", []⟩)], none⟩ false).1.Perm
      (scanListing [("a", some ⟨"a", none, "2025-01-01", "u", []⟩),
        ("b", some ⟨"b", none, "2025-01-02", "u", []⟩)]) ∧
    (list_conversations ⟨[("a", some ⟨"a", none, "2025-01-01", "u", []⟩),
        ("b", some ⟨"b", none, "2025-01-02", "u", []⟩)], none⟩ false).1.Pairwise
      (fun a b => b.created < a.created) :=
  C6_list_descending
    ⟨[("a", some ⟨"a", none, "2025-01-01", "u", []⟩),
      ("b", some ⟨"b", none, "2025-01-02", "u", []⟩)], none⟩
    (Or.inl rfl) (by decide)

/-- Claim C7: deleting an existing id returns `true` and removes the record;
deleting a missing id returns `false` and leaves the store untouched; hence
two consecutive deletes of the same existing id return `true` then `false`. -/
theorem C7_delete_idempotent (st : Store) (cid : String) :
    ((st.files.lookup cid).isSome →
      (delete_conversation st cid).1 = true ∧
      (delete_conversation st cid).2.files.lookup cid = none ∧
      (delete_conversation (delete_conversation st cid).2 cid).1 = false) ∧
    (st.files.lookup cid = none → delete_conversation st cid = (false, st)) := by
  constructor
  · intro h
    have h1 : delete_conversation st cid =
        (true, { files := st.files.filter (fun p => p.1 != cid), cache := none }) := by
      simp [delete_conversation, h]
    rw [h1]
    exact ⟨rfl, lookup_filter_out st.files cid,
      by simp [delete_conversation, lookup_filter_out st.files cid]⟩
  · intro h
    simp [delete_conversation, h]

/-- Claim C7 witness: deleting the only record of a concrete store, twice,
and deleting a missing id. -/
theorem C7_delete_idempotent_witness :
    ((delete_conversation ⟨[("a", some ⟨"a", some "T", "c", "u", []⟩)], none⟩ "a").1 = true ∧
      (delete_conversation ⟨[("a", some ⟨"a", some "T", "c", "u", []⟩)], none⟩
          "a").2.files.lookup "a" = none ∧
      (delete_conversation
        (delete_conversation ⟨[("a", some ⟨"a", some "T", "c", "u", []⟩)], none⟩ "a").2
        "a").1 = false) ∧
    delete_conversation ⟨[("a", some ⟨"a", some "T", "c", "u", []⟩)], none⟩ "zzz" =
      (false, ⟨[("a", some ⟨"a", some "T", "c", "u", []⟩)], none⟩) :=
  ⟨(C7_delete_idempotent ⟨[("a", some ⟨"a", some "T", "c", "u", []⟩)], none⟩ "a").1
      (by decide),
   (C7_delete_idempotent ⟨[("a", some ⟨"a", some "T", "c", "u", []⟩)], none⟩ "zzz").2
      (by decide)⟩

/-- Claim C8: a `list()` scan yields exactly one entry per parseable record
— unparseable files are skipped (never a failure: the scan is total) and
every parseable record's metadata is in the result. -/
theorem C8_list_skips_unparseable (st : Store) :
    (list_conversations st true).1.length =
      (st.files.filter (fun p => p.2.isSome)).length ∧
    ∀ n r, (n, some r) ∈ st.files → metaOfRecord r ∈ (list_conversations st true).1 := by
  rw [list_conversations_force st]
  exact ⟨length_buildListing st.files, fun n r h => mem_buildListing h⟩

/-- Claim C8 witness: a store with one corrupt and one parseable file lists
exactly the parseable record. -/
theorem C8_list_skips_unparseable_witness :
    metaOfRecord ⟨"c", some "T", "2025", "u", []⟩ ∈
      (list_conversations ⟨[("b", none), ("c", some ⟨"c", some "T", "2025", "u", []⟩)], none⟩
        true).1 ∧
    (list_conversations ⟨[("b", none), ("c", some ⟨"c", some "T", "2025", "u", []⟩)], none⟩
        true).1.length = 1 := by
  constructor
  · exact (C8_list_skips_unparseable _).2 "c" _ (by decide)
  · rw [(C8_list_skips_unparseable _).1]
    decide

/-- Claim C9 (counterexample): the claim asserts `updated_at >= created_at`
for every Conversation after construction, with `from_dict` among the
constructors; but `from_dict` (message.py lines 129-130) copies the stored
timestamps verbatim, so a record with `updated` earlier than `created`
yields a conversation violating the invariant. -/
theorem C9_counterexample :
    (Conversation.from_dict
        { id := none, title := none, system_prompt := none,
          created := "2025-06-01", updated := "2025-01-01", messages := [] }
        "2025-07-01").created_at = "2025-06-01" ∧
    (Conversation.from_dict
        { id := none, title := none, system_prompt := none,
          created := "2025-06-01", updated := "2025-01-01", messages := [] }
        "2025-07-01").updated_at = "2025-01-01" ∧
    ¬ ((Conversation.from_dict
        { id := none, title := none, system_prompt := none,
          created := "2025-06-01", updated := "2025-01-01", messages := [] }
        "2025-07-01").updated_at ≥
      (Conversation.from_dict
        { id := none, title := none, system_prompt := none,
          created := "2025-06-01", updated := "2025-01-01", messages := [] }
        "2025-07-01").created_at) :=
  ⟨rfl, rfl, fun hle => absurd (String.le_iff_toList_le.mp hle) (by decide)⟩

/-- Claim C9 (amended): `__init__` establishes `updated_at >= created_at`
(both are the construction time); `add_message` always refreshes
`updated_at` to the current time, and preserves the invariant whenever the
clock has not moved backwards past `created_at`; `from_dict` copies stored
timestamps verbatim and therefore only satisfies the invariant when the
record does. -/
theorem C9_timestamps (messages : Option (List Message)) (id title sp : Option String)
    (now : String) (c : Conversation) (m : Message) (now2 : String) :
    (Conversation.init messages id title sp now).updated_at ≥
      (Conversation.init messages id title sp now).created_at ∧
    (c.add_message m now2).updated_at = now2 ∧
    (c.created_at ≤ now2 →
      (c.add_message m now2).updated_at ≥ (c.add_message m now2).created_at) :=
  ⟨le_refl _, rfl, fun h => h⟩

/-- Claim C9 witness: a conversation created at an earlier time appended to
at a later time keeps the invariant. -/
theorem C9_timestamps_witness :
    (Conversation.init none none none none "2025-01-01").updated_at ≥
      (Conversation.init none none none none "2025-01-01").created_at ∧
    ((Conversation.init none none none none "2025-01-01").add_message
        (Message.init "user" "hi" none none "12:00") "2025-02-02").updated_at =
      "2025-02-02" ∧
    ((Conversation.init none none none none "2025-01-01").add_message
        (Message.init "user" "hi" none none "12:00") "2025-02-02").updated_at ≥
      ((Conversation.init none none none none "2025-01-01").add_message
        (Message.init "user" "hi" none none "12:00") "2025-02-02").created_at :=
  ⟨(C9_timestamps none none none none "2025-01-01"
      (Conversation.init none none none none "2025-01-01")
      (Message.init "user" "hi" none none "12:00") "2025-02-02").1,
   (C9_timestamps none none none none "2025-01-01"
      (Conversation.init none none none none "2025-01-01")
      (Message.init "user" "hi" none none "12:00") "2025-02-02").2.1,
   (C9_timestamps none none none none "2025-01-01"
      (Conversation.init none none none none "2025-01-01")
      (Message.init "user" "hi" none none "12:00") "2025-02-02").2.2
      (String.le_iff_toList_le.mpr (by decide))⟩
